import Mathlib

/-
Verification of the SM7125 in-display fingerprint HAL shim
(`fod/FingerprintInscreen.cpp`).

The C++ object is modelled as a pure state machine.  Side effects (sysfs
writes, vendor IPC calls, callback invocations, error logs) are recorded
in an explicit effect trace; the mutable fields `mPreviousBrightness` and
`mCallback` form the state.  Reads of external files and of the
`ro.boot.bootloader` property are passed in as arguments, since they come
from outside the process.
-/

namespace FPI

/-- Substring search on character lists: `listContainsSub pat s` is true iff
`pat` occurs contiguously in `s`.  Models `std::string::find(pat) != npos`. -/
def listContainsSub (pat : List Char) : List Char → Bool
  | [] => pat.isEmpty
  | c :: t => pat.isPrefixOf (c :: t) || listContainsSub pat t

/-- String-level wrapper: does `s` contain `pat` as a substring
(`s.find(pat) != std::string::npos` in the source). -/
def strFind (s pat : String) : Bool :=
  listContainsSub pat.data s.data

/-- `#define FINGERPRINT_ACQUIRED_VENDOR 6` -/
def FINGERPRINT_ACQUIRED_VENDOR : Int := 6

/-- `#define SEM_FINGER_STATE 22` -/
def SEM_FINGER_STATE : Int := 22

/-- `#define SEM_PARAM_PRESSED 2` -/
def SEM_PARAM_PRESSED : Int := 2

/-- `#define SEM_PARAM_RELEASED 1` -/
def SEM_PARAM_RELEASED : Int := 1

/-- `#define SEM_AOSP_FQNAME ...` -/
def SEM_AOSP_FQNAME : String :=
  "android.hardware.biometrics.fingerprint@2.1::IBiometricsFingerprint"

/-- Two's-complement cast of a byte value to `int8_t`, as in `(int8_t) str[i]`. -/
def int8cast (n : Nat) : Int :=
  ((n + 128) % 256 : Nat) - 128

/-- `stringToVec`: builds the `hidl_vec<int8_t>` holding the characters of
`str` followed by a terminating `\x00` byte. -/
def stringToVec (str : String) : List Int :=
  str.data.map (fun c => int8cast c.toNat) ++ [0]

/-- One observable side effect of the controller. -/
inductive Effect where
  /-- A write of `cmd` to `/sys/class/sec/tsp/cmd`. -/
  | writeTsp (cmd : String) : Effect
  /-- A write of `v` to the backlight brightness file. -/
  | writeBrightness (v : String) : Effect
  /-- A `sehRequest(stateId, param, data, requestResult)` IPC call. -/
  | sehRequest (stateId param : Int) (data : List Int) : Effect
  /-- An `mCallback->onFingerDown()` invocation. -/
  | cbFingerDown : Effect
  /-- An `mCallback->onFingerUp()` invocation. -/
  | cbFingerUp : Effect
  /-- A `LOG(ERROR)` line. -/
  | logError : Effect
deriving DecidableEq, Repr

/-- The registered `IFingerprintInscreenCallback`, abstracted to whether its
`onFingerDown` / `onFingerUp` transactions report `isOk()`. -/
structure Callback where
  downOk : Bool
  upOk : Bool
deriving DecidableEq, Repr

/-- The mutable fields of `FingerprintInscreen`. -/
structure FpState where
  mPreviousBrightness : String
  mCallback : Option Callback
deriving DecidableEq, Repr

/-- Field state right after member default-initialisation: empty string,
no callback. -/
def initState : FpState :=
  { mPreviousBrightness := "", mCallback := none }

/-- Effects of the `FingerprintInscreen` constructor, given the value of the
`ro.boot.bootloader` property. -/
def constructorEffects (bootloader : String) : List Effect :=
  (if strFind bootloader "A525" then
    [Effect.writeTsp "set_fod_rect,421,2018,659,2256"]
  else if strFind bootloader "A725" then
    [Effect.writeTsp "set_fod_rect,426,2031,654,2259"]
  else
    [Effect.logError])
  ++ [Effect.writeTsp "fod_enable,1,1,0"]

/-- `requestResult`: the sehRequest result callback; ignores all results. -/
def requestResult (_code : Int) (_data : List Int) : Unit := ()

/-- `onPress`: saves the brightness value read from the backlight file
(`brightnessRead`; the empty string when the read failed), forces
brightness to `"331"`, then forwards the pressed signal. -/
def onPress (st : FpState) (brightnessRead : String) : FpState × List Effect :=
  ({ st with mPreviousBrightness := brightnessRead },
   [Effect.writeBrightness "331",
    Effect.sehRequest SEM_FINGER_STATE SEM_PARAM_PRESSED (stringToVec SEM_AOSP_FQNAME)])

/-- `onRelease`: forwards the released signal, disables FOD mode, then
restores and clears the saved brightness when one is pending. -/
def onRelease (st : FpState) : FpState × List Effect :=
  let base : List Effect :=
    [Effect.sehRequest SEM_FINGER_STATE SEM_PARAM_RELEASED (stringToVec SEM_AOSP_FQNAME),
     Effect.writeTsp "fod_enable,0"]
  if st.mPreviousBrightness = "" then
    (st, base)
  else
    ({ st with mPreviousBrightness := "" },
     base ++ [Effect.writeBrightness st.mPreviousBrightness])

/-- `onHideFODView`: disables FOD mode, then restores and clears the saved
brightness when one is pending. -/
def onHideFODView (st : FpState) : FpState × List Effect :=
  let base : List Effect := [Effect.writeTsp "fod_enable,0"]
  if st.mPreviousBrightness = "" then
    (st, base)
  else
    ({ st with mPreviousBrightness := "" },
     base ++ [Effect.writeBrightness st.mPreviousBrightness])

/-- `setCallback`: replaces the registered callback (possibly with null). -/
def setCallback (st : FpState) (cb : Option Callback) : FpState :=
  { st with mCallback := cb }

/-- `handleAcquired(acquiredInfo, vendorCode)`: returns the handled flag, the
trace of callback invocations and logs, and the (unchanged) state. -/
def handleAcquired (st : FpState) (acquiredInfo vendorCode : Int) :
    Bool × List Effect × FpState :=
  match st.mCallback with
  | none => (false, [], st)
  | some cb =>
    if acquiredInfo = FINGERPRINT_ACQUIRED_VENDOR then
      if vendorCode = 10002 then
        (true, Effect.cbFingerDown :: (if cb.downOk then [] else [Effect.logError]), st)
      else if vendorCode = 10001 then
        (true, Effect.cbFingerUp :: (if cb.upOk then [] else [Effect.logError]), st)
      else
        (false, [Effect.logError], st)
    else
      (false, [Effect.logError], st)

/-- `getPositionX`: re-reads the bootloader property on each call. -/
def getPositionX (bootloader : String) : Int :=
  if strFind bootloader "A525" then 421
  else if strFind bootloader "A725" then 426
  else 0

/-- `getPositionY`: re-reads the bootloader property on each call. -/
def getPositionY (bootloader : String) : Int :=
  if strFind bootloader "A525" then 2018
  else if strFind bootloader "A725" then 2031
  else 0

/-- `getSize`: re-reads the bootloader property on each call. -/
def getSize (bootloader : String) : Int :=
  if strFind bootloader "A525" then 238
  else if strFind bootloader "A725" then 228
  else 0

/-- The brightness values written in a trace, in order. -/
def brightnessWrites (effs : List Effect) : List String :=
  effs.filterMap fun e =>
    match e with
    | Effect.writeBrightness v => some v
    | _ => none

/-- The `set_fod_rect` touch-panel commands written in a trace, in order. -/
def rectWrites (effs : List Effect) : List String :=
  effs.filterMap fun e =>
    match e with
    | Effect.writeTsp cmd => if strFind cmd "set_fod_rect" then some cmd else none
    | _ => none

/-- The `sehRequest` calls in a trace, as (state id, param, data) triples. -/
def sehWrites (effs : List Effect) : List (Int × Int × List Int) :=
  effs.filterMap fun e =>
    match e with
    | Effect.sehRequest s p d => some (s, p, d)
    | _ => none

/-- Is this effect an `onFingerDown` invocation. -/
def isDown : Effect → Bool
  | Effect.cbFingerDown => true
  | _ => false

/-- Is this effect an `onFingerUp` invocation. -/
def isUp : Effect → Bool
  | Effect.cbFingerUp => true
  | _ => false

/-- Number of `onFingerDown` invocations in a trace. -/
def countDown (effs : List Effect) : Nat :=
  (effs.filter isDown).length

/-- Number of `onFingerUp` invocations in a trace. -/
def countUp (effs : List Effect) : Nat :=
  (effs.filter isUp).length

/-- Either of the two teardown operations that disable FOD mode and restore
pending brightness. -/
inductive RHOp where
  | release : RHOp
  | hide : RHOp
deriving DecidableEq, Repr

/-- Run a teardown operation. -/
def runRH : RHOp → FpState → FpState × List Effect
  | RHOp.release, st => onRelease st
  | RHOp.hide, st => onHideFODView st

/-- Modelled from the spec: the `DeviceProfile` variant that section 3 of the
specification says is "derived once at construction, immutable thereafter".
The source stores no such profile; this type exists to compare that
description with the code. -/
inductive Profile where
  | a525 : Profile
  | a725 : Profile
  | unknown : Profile
deriving DecidableEq, Repr

/-- Modelled from the spec: profile resolution by substring match, `"A525"`
first, then `"A725"`, applied once to the construction-time property value. -/
def resolveProfile (bootloader : String) : Profile :=
  if strFind bootloader "A525" then Profile.a525
  else if strFind bootloader "A725" then Profile.a725
  else Profile.unknown

/-- Modelled from the spec: X position as a pure lookup against the resolved
profile. -/
def profilePositionX : Profile → Int
  | Profile.a525 => 421
  | Profile.a725 => 426
  | Profile.unknown => 0

/-- Modelled from the spec: Y position as a pure lookup against the resolved
profile. -/
def profilePositionY : Profile → Int
  | Profile.a525 => 2018
  | Profile.a725 => 2031
  | Profile.unknown => 0

/-- Modelled from the spec: sensor size as a pure lookup against the resolved
profile. -/
def profileSize : Profile → Int
  | Profile.a525 => 238
  | Profile.a725 => 228
  | Profile.unknown => 0

/-- The `set_fod_rect` command string for a rectangle with the given corners. -/
def mkRect (l t r b : Int) : String :=
  "set_fod_rect," ++ toString l ++ "," ++ toString t ++ ","
    ++ toString r ++ "," ++ toString b

/-- C1: with a callback registered, `handleAcquired` leaves the state
unchanged; it returns true and invokes exactly one `onFingerDown` for
(6, 10002) and exactly one `onFingerUp` for (6, 10001); every other
(acquiredInfo, vendorCode) pair returns false and invokes neither. -/
theorem C1_handleAcquired_classification (st : FpState) (cb : Callback)
    (h : st.mCallback = some cb) (a v : Int) :
    (handleAcquired st a v).2.2 = st ∧
    (a = 6 ∧ v = 10002 →
      (handleAcquired st a v).1 = true ∧
      countDown (handleAcquired st a v).2.1 = 1 ∧
      countUp (handleAcquired st a v).2.1 = 0) ∧
    (a = 6 ∧ v = 10001 →
      (handleAcquired st a v).1 = true ∧
      countUp (handleAcquired st a v).2.1 = 1 ∧
      countDown (handleAcquired st a v).2.1 = 0) ∧
    (¬(a = 6 ∧ (v = 10002 ∨ v = 10001)) →
      (handleAcquired st a v).1 = false ∧
      countDown (handleAcquired st a v).2.1 = 0 ∧
      countUp (handleAcquired st a v).2.1 = 0) := by
  unfold handleAcquired
  rw [h]
  by_cases ha : a = 6
  · subst ha
    by_cases hv2 : v = 10002
    · subst hv2
      cases hd : cb.downOk <;>
        simp [FINGERPRINT_ACQUIRED_VENDOR, hd, countDown, countUp, isDown, isUp,
          List.filter]
    · by_cases hv1 : v = 10001
      · subst hv1
        cases hu : cb.upOk <;>
          simp [FINGERPRINT_ACQUIRED_VENDOR, hu, hv2, countDown, countUp, isDown,
            isUp, List.filter]
      · simp [FINGERPRINT_ACQUIRED_VENDOR, hv1, hv2, countDown, countUp, isDown,
          isUp, List.filter]
  · simp [FINGERPRINT_ACQUIRED_VENDOR, ha, countDown, countUp, isDown, isUp,
      List.filter]

/-- Witness for C1: a concrete state with a registered callback, at the
recognized pair (6, 10002). -/
theorem C1_witness :
    (setCallback initState (some ⟨true, true⟩)).mCallback = some ⟨true, true⟩ ∧
    ((handleAcquired (setCallback initState (some ⟨true, true⟩)) 6 10002).1 = true ∧
      countDown (handleAcquired (setCallback initState (some ⟨true, true⟩)) 6 10002).2.1 = 1 ∧
      countUp (handleAcquired (setCallback initState (some ⟨true, true⟩)) 6 10002).2.1 = 0) :=
  ⟨rfl,
   (C1_handleAcquired_classification (setCallback initState (some ⟨true, true⟩))
      ⟨true, true⟩ rfl 6 10002).2.1 ⟨rfl, rfl⟩⟩

/-- C2: a bootloader string containing "A525" yields geometry 421/2018/238 and
the A525 rectangle command at construction; one containing "A725" but not
"A525" yields 426/2031/228 and the A725 rectangle command; any other string
yields all-zero geometry and no rectangle command. -/
theorem C2_geometry_profiles (b : String) :
    (strFind b "A525" = true →
      getPositionX b = 421 ∧ getPositionY b = 2018 ∧ getSize b = 238 ∧
      rectWrites (constructorEffects b) = ["set_fod_rect,421,2018,659,2256"]) ∧
    (strFind b "A525" = false → strFind b "A725" = true →
      getPositionX b = 426 ∧ getPositionY b = 2031 ∧ getSize b = 228 ∧
      rectWrites (constructorEffects b) = ["set_fod_rect,426,2031,654,2259"]) ∧
    (strFind b "A525" = false → strFind b "A725" = false →
      getPositionX b = 0 ∧ getPositionY b = 0 ∧ getSize b = 0 ∧
      rectWrites (constructorEffects b) = []) := by
  refine ⟨fun h5 => ?_, fun h5 h7 => ?_, fun h5 h7 => ?_⟩ <;>
    simp [getPositionX, getPositionY, getSize, constructorEffects, rectWrites,
      List.filterMap, h5]
  · decide
  · simp [h7]; decide
  · simp [h7]; decide

/-- Witness for C2: one bootloader string for each of the three branches. -/
theorem C2_witness :
    (getPositionX "SM-A525F" = 421 ∧ getPositionY "SM-A525F" = 2018 ∧
      getSize "SM-A525F" = 238 ∧
      rectWrites (constructorEffects "SM-A525F") = ["set_fod_rect,421,2018,659,2256"]) ∧
    (getPositionX "SM-A725F" = 426 ∧ getPositionY "SM-A725F" = 2031 ∧
      getSize "SM-A725F" = 228 ∧
      rectWrites (constructorEffects "SM-A725F") = ["set_fod_rect,426,2031,654,2259"]) ∧
    (getPositionX "SM-G991B" = 0 ∧ getPositionY "SM-G991B" = 0 ∧
      getSize "SM-G991B" = 0 ∧
      rectWrites (constructorEffects "SM-G991B") = []) :=
  ⟨(C2_geometry_profiles "SM-A525F").1 (by decide),
   (C2_geometry_profiles "SM-A725F").2.1 (by decide) (by decide),
   (C2_geometry_profiles "SM-G991B").2.2 (by decide) (by decide)⟩

/-- C3: `onPress` forces brightness to "331"; an immediately following
`onRelease` writes back exactly the value read just before the press and
clears the saved value, and writes nothing when that read was empty or
failed. -/
theorem C3_press_release_restore (st : FpState) (b : String) :
    brightnessWrites (onPress st b).2 = ["331"] ∧
    (b ≠ "" →
      brightnessWrites (onRelease (onPress st b).1).2 = [b] ∧
      (onRelease (onPress st b).1).1.mPreviousBrightness = "") ∧
    (b = "" → brightnessWrites (onRelease (onPress st b).1).2 = []) := by
  refine ⟨?_, fun hb => ?_, fun hb => ?_⟩
  · simp [onPress, brightnessWrites]
  · simp [onPress, onRelease, brightnessWrites, hb]
  · simp [onPress, onRelease, brightnessWrites, hb]

/-- Witness for C3: a press reading "400" and a press whose read failed. -/
theorem C3_witness :
    (brightnessWrites (onRelease (onPress initState "400").1).2 = ["400"] ∧
      (onRelease (onPress initState "400").1).1.mPreviousBrightness = "") ∧
    brightnessWrites (onRelease (onPress initState "").1).2 = [] :=
  ⟨(C3_press_release_restore initState "400").2.1 (by decide),
   (C3_press_release_restore initState "").2.2 rfl⟩

/-- C4: with no callback registered — in particular right after
`setCallback(null)` — `handleAcquired` returns false for every event pair,
with no callback invocation and no state change. -/
theorem C4_no_callback (st : FpState) (a v : Int) :
    handleAcquired (setCallback st none) a v = (false, [], setCallback st none) ∧
    (st.mCallback = none → handleAcquired st a v = (false, [], st)) := by
  constructor
  · simp [handleAcquired, setCallback]
  · intro h
    simp [handleAcquired, h]

/-- Witness for C4: the initial state has no callback. -/
theorem C4_witness :
    handleAcquired initState 6 10002 = (false, [], initState) :=
  (C4_no_callback initState 6 10002).2 rfl

/-- C5: a second `onPress` overwrites the saved brightness, so the eventual
`onRelease` restores the second observed value, never the first. -/
theorem C5_second_press_wins (st : FpState) (b1 b2 : String) :
    ((onPress (onPress st b1).1 b2).1).mPreviousBrightness = b2 ∧
    (b2 ≠ "" →
      brightnessWrites (onRelease (onPress (onPress st b1).1 b2).1).2 = [b2]) ∧
    (b2 = "" →
      brightnessWrites (onRelease (onPress (onPress st b1).1 b2).1).2 = []) := by
  refine ⟨rfl, fun hb => ?_, fun hb => ?_⟩
  · simp [onPress, onRelease, brightnessWrites, hb]
  · simp [onPress, onRelease, brightnessWrites, hb]

/-- Witness for C5: presses reading "100" then "200"; release restores "200". -/
theorem C5_witness :
    brightnessWrites (onRelease (onPress (onPress initState "100").1 "200").1).2 = ["200"] :=
  (C5_second_press_wins initState "100" "200").2.1 (by decide)

/-- C6: `onRelease` and `onHideFODView`, in any back-to-back order, each write
`fod_enable,0`; the first call restores the pending brightness (exactly one
write when one is pending, none otherwise) and clears it, and the second call
performs no brightness write at all. -/
theorem C6_teardown_restore_once (o1 o2 : RHOp) (st : FpState) :
    Effect.writeTsp "fod_enable,0" ∈ (runRH o1 st).2 ∧
    Effect.writeTsp "fod_enable,0" ∈ (runRH o2 (runRH o1 st).1).2 ∧
    brightnessWrites (runRH o1 st).2 =
      (if st.mPreviousBrightness = "" then [] else [st.mPreviousBrightness]) ∧
    (runRH o1 st).1.mPreviousBrightness = "" ∧
    brightnessWrites (runRH o2 (runRH o1 st).1).2 = [] := by
  cases o1 <;> cases o2 <;>
    by_cases h : st.mPreviousBrightness = "" <;>
      simp [runRH, onRelease, onHideFODView, brightnessWrites, h]

/-- C7 counterexample: the getters re-read the bootloader property at every
call, so a controller constructed while the property contained "A525" (the
resolve-once profile value 421) reports 426 as soon as a later property value
contains "A725" instead — the result is not independent of a later property
change. -/
theorem C7_counterexample :
    getPositionX "SM-A725F" ≠ profilePositionX (resolveProfile "SM-A525F") ∧
    profilePositionX (resolveProfile "SM-A525F") = 421 ∧
    getPositionX "SM-A725F" = 426 := by
  decide

/-- C7 amended: each getter equals the spec's profile lookup applied to the
bootloader property value read at call time; the match is recomputed on every
call rather than resolved once at construction, so calls agree with each other
only while the property value is unchanged. -/
theorem C7_getters_profile_lookup (b : String) :
    getPositionX b = profilePositionX (resolveProfile b) ∧
    getPositionY b = profilePositionY (resolveProfile b) ∧
    getSize b = profileSize (resolveProfile b) := by
  by_cases h5 : strFind b "A525" <;> by_cases h7 : strFind b "A725" <;>
    simp [getPositionX, getPositionY, getSize, resolveProfile,
      profilePositionX, profilePositionY, profileSize, h5, h7]

/-- C8: `onPress` forwards exactly one signal (22, 2) and `onRelease` exactly
one signal (22, 1), both carrying the null-terminated FQ-name byte string;
the result callback ignores its payload entirely. -/
theorem C8_seh_signal_codes (st : FpState) (b : String) :
    sehWrites (onPress st b).2 =
      [(SEM_FINGER_STATE, SEM_PARAM_PRESSED, stringToVec SEM_AOSP_FQNAME)] ∧
    sehWrites (onRelease st).2 =
      [(SEM_FINGER_STATE, SEM_PARAM_RELEASED, stringToVec SEM_AOSP_FQNAME)] ∧
    SEM_PARAM_PRESSED = 2 ∧ SEM_PARAM_RELEASED = 1 ∧
    (stringToVec SEM_AOSP_FQNAME).getLast? = some 0 ∧
    (∀ c d, requestResult c d = requestResult 0 []) := by
  refine ⟨?_, ?_, rfl, rfl, by decide, fun c d => rfl⟩
  · simp [onPress, sehWrites]
  · by_cases h : st.mPreviousBrightness = "" <;>
      simp [onRelease, sehWrites, h]

/-- C9: for the two recognized pairs with a callback registered, the return
value is true and the state unchanged whether or not the callback invocation
reports `isOk()`; a failing invocation only adds an error log. -/
theorem C9_callback_failure_ignored (pb : String) (dOk uOk : Bool) :
    (handleAcquired ⟨pb, some ⟨dOk, uOk⟩⟩ 6 10002).1 = true ∧
    (handleAcquired ⟨pb, some ⟨dOk, uOk⟩⟩ 6 10001).1 = true ∧
    (handleAcquired ⟨pb, some ⟨dOk, uOk⟩⟩ 6 10002).2.2 = ⟨pb, some ⟨dOk, uOk⟩⟩ ∧
    (handleAcquired ⟨pb, some ⟨dOk, uOk⟩⟩ 6 10001).2.2 = ⟨pb, some ⟨dOk, uOk⟩⟩ ∧
    (Effect.logError ∈ (handleAcquired ⟨pb, some ⟨dOk, uOk⟩⟩ 6 10002).2.1 ↔ dOk = false) ∧
    (Effect.logError ∈ (handleAcquired ⟨pb, some ⟨dOk, uOk⟩⟩ 6 10001).2.1 ↔ uOk = false) := by
  cases dOk <;> cases uOk <;>
    simp [handleAcquired, FINGERPRINT_ACQUIRED_VENDOR]

/-- C10: for each matched profile the construction-time rectangle command is
exactly `set_fod_rect,<getPositionX>,<getPositionY>,<right>,<bottom>` — the
reported position is the rectangle's top-left corner. -/
theorem C10_position_is_rect_corner (bl : String) :
    (strFind bl "A525" = true →
      rectWrites (constructorEffects bl) =
        [mkRect (getPositionX bl) (getPositionY bl) 659 2256] ∧
      getPositionX bl = 421 ∧ getPositionY bl = 2018) ∧
    (strFind bl "A525" = false → strFind bl "A725" = true →
      rectWrites (constructorEffects bl) =
        [mkRect (getPositionX bl) (getPositionY bl) 654 2259] ∧
      getPositionX bl = 426 ∧ getPositionY bl = 2031) := by
  refine ⟨fun h5 => ?_, fun h5 h7 => ?_⟩
  · simp [getPositionX, getPositionY, constructorEffects, rectWrites,
      List.filterMap, h5]
    decide
  · simp [getPositionX, getPositionY, constructorEffects, rectWrites,
      List.filterMap, h5, h7]
    decide

/-- Witness for C10: both matched profiles at concrete bootloader strings. -/
theorem C10_witness :
    (rectWrites (constructorEffects "SM-A525F") =
        [mkRect (getPositionX "SM-A525F") (getPositionY "SM-A525F") 659 2256] ∧
      getPositionX "SM-A525F" = 421 ∧ getPositionY "SM-A525F" = 2018) ∧
    (rectWrites (constructorEffects "SM-A725F") =
        [mkRect (getPositionX "SM-A725F") (getPositionY "SM-A725F") 654 2259] ∧
      getPositionX "SM-A725F" = 426 ∧ getPositionY "SM-A725F" = 2031) :=
  ⟨(C10_position_is_rect_corner "SM-A525F").1 (by decide),
   (C10_position_is_rect_corner "SM-A725F").2 (by decide) (by decide)⟩

end FPI
